import Mathlib

/-!
Shallow embedding of `webpack.config.js` from the hubs repository.

The file models the process environment, the `certs/` directory state used
by `createHTTPSConfig`, the configuration object `config` built at module
load, and the exported function `module.exports` that optionally produces a
second "smoke" configuration. JavaScript strings are Lean `String`s;
`process.env.X` (a string or `undefined`) is `Option String`; JS truthiness
of such a value is `truthy` below; the JS `false` alternative of the https
configuration is the `HTTPSResult.disabled` constructor.
-/

namespace Hubs

/-- The process environment restricted to the variables the config reads.
Each field is `some s` when the variable is set to the string `s` and
`none` when it is undefined, matching `process.env`. -/
structure Env where
  NODE_ENV : Option String
  BASE_ASSETS_PATH : Option String
  GENERATE_SMOKE_TESTS : Option String
  ORIGIN_TRIAL_EXPIRES : Option String
  ORIGIN_TRIAL_TOKEN : Option String
  JANUS_SERVER : Option String
  deriving DecidableEq, Repr

/-- JS truthiness of a `process.env` value: `undefined` and the empty
string are falsy, every other string is truthy. -/
def truthy : Option String → Bool
  | none => false
  | some s => s ≠ ""

/-- State of the `certs/` directory next to the config file: whether
`fs.existsSync(path.join(__dirname, "certs"))` holds, and the contents of
`certs/key.pem` and `certs/cert.pem` (meaningful when the directory
exists). -/
structure FsState where
  certsDirExists : Bool
  keyPem : String
  certPem : String
  deriving DecidableEq, Repr

/-- The pair produced by `selfsigned.generate` (its `private` and `cert`
fields); the generation itself is a third-party library call, so the
produced material is a parameter. -/
structure Pems where
  privateKey : String
  cert : String
  deriving DecidableEq, Repr

/-- Result of `createHTTPSConfig`: JS `false`, or the `{ key, cert }`
object. -/
inductive HTTPSResult where
  | disabled
  | pair (key cert : String)
  deriving DecidableEq, Repr

/-- `process.env.NODE_ENV === "production"`, the test the config repeats. -/
def isProd (env : Env) : Bool := env.NODE_ENV == some "production"

/-- `createHTTPSConfig` from `webpack.config.js`, as a function of the
environment, the `certs/` directory state and the material `selfsigned`
would generate; returns the JS return value together with the directory
state after the call (the call writes `cert.pem` and `key.pem` after
`mkdirSync` when the directory was absent). -/
def createHTTPSConfig (env : Env) (fs : FsState) (pems : Pems) :
    HTTPSResult × FsState :=
  if isProd env then
    (.disabled, fs)
  else if fs.certsDirExists then
    (.pair fs.keyPem fs.certPem, fs)
  else
    (.pair pems.privateKey pems.cert,
     { certsDirExists := true, keyPem := pems.privateKey, certPem := pems.cert })

/-- `pat.isPrefixOf l || pat` occurs in the tail: whether `pat` occurs as a
contiguous sublist of `l`, as JS `String.prototype.indexOf` would find. -/
def occursIn (pat : List Char) : List Char → Bool
  | [] => pat.isEmpty
  | c :: cs => pat.isPrefixOf (c :: cs) || occursIn pat cs

/-- JS `String.prototype.replace` with a string pattern: replace only the
leftmost occurrence of `pat` by `repl`, leaving the string unchanged when
`pat` does not occur. List-of-characters version. -/
def replaceFirstList (pat repl : List Char) : List Char → List Char
  | [] => if pat.isEmpty then repl else []
  | c :: cs =>
    if pat.isPrefixOf (c :: cs) then repl ++ (c :: cs).drop pat.length
    else c :: replaceFirstList pat repl cs

/-- JS `s.replace(pat, repl)` with a string pattern (first occurrence
only). -/
def replaceFirst (pat repl s : String) : String :=
  ⟨replaceFirstList pat.data repl.data s.data⟩

/-- Whether `pat` occurs as a substring of `s` (JS `indexOf(pat) !== -1`). -/
def occursInStr (pat s : String) : Bool :=
  occursIn pat.data s.data

theorem replaceFirstList_of_not_occurs (pat repl : List Char) :
    ∀ l : List Char, occursIn pat l = false → replaceFirstList pat repl l = l := by
  intro l
  induction l with
  | nil =>
    intro h
    simp [occursIn, List.isEmpty_iff] at h
    simp [replaceFirstList, List.isEmpty_iff, h]
  | cons c cs ih =>
    intro h
    simp [occursIn] at h
    simp [replaceFirstList, h.1, ih h.2]

theorem replaceFirst_of_not_occurs (pat repl s : String)
    (h : occursInStr pat s = false) : replaceFirst pat repl s = s := by
  unfold replaceFirst
  rw [replaceFirstList_of_not_occurs pat.data repl.data s.data h]

/-- `path.join(a, b)` for the joins the config performs (no `..` segments
appear, so joining is concatenation with a separator). -/
def pathJoin (a b : String) : String := a ++ "/" ++ b

/-- Options of the `css-loader` occurrences (`{ minimize: ... }`). -/
structure CssLoaderOptions where
  minimize : Bool
  deriving DecidableEq, Repr

/-- One element of `config.module.rules`, keeping the fields the rules
actually set: the html rule (attrs list and interpolate mode), the babel
rule (its plugin list), the two `ExtractTextPlugin.extract` style rules
(fallback loader and css-loader options, plus the sass loader for `.scss`),
and the file rule (name pattern and context). -/
inductive Rule where
  | htmlRule (attrs : List String) (interpolate : String)
  | jsRule (plugins : List String)
  | scssRule (fallback : String) (cssOptions : CssLoaderOptions) (sassLoader : String)
  | cssRule (fallback : String) (cssOptions : CssLoaderOptions)
  | fileRule (name : String) (context : String)
  deriving DecidableEq, Repr

/-- The `options` object handed to `LodashTemplatePlugin`: the `imports`
map exposing environment values to the lodash template. -/
structure LodashOptions where
  imports : List (String × Option String)
  deriving DecidableEq, Repr

/-- One element of `config.plugins`: an `HTMLWebpackPlugin` (filename,
template, chunks, optional inject mode), the `ExtractTextPlugin`
(filename pattern and `disable` flag), the `LodashTemplatePlugin`, or the
`webpack.DefinePlugin` (the `process.env` object it defines). -/
inductive Plugin where
  | html (filename template : String) (chunks : List String) (inject : Option String)
  | extractText (filename : String) (disable : Bool)
  | lodashTemplate (options : LodashOptions)
  | define (envObject : List (String × Option String))
  deriving DecidableEq, Repr

/-- `config.output`. -/
structure Output where
  path : String
  filename : String
  publicPath : String
  deriving DecidableEq, Repr

/-- A request as the dev-server `before` hook sees it. -/
structure Request where
  method : String
  deriving DecidableEq, Repr

/-- What the handler registered by `app.head("*", ...)` does with a
request: send a response (body and `Date` header) or call `next()`,
leaving the request untouched. -/
inductive HandlerResult where
  | respond (body dateHeader : String)
  | next
  deriving DecidableEq, Repr

/-- The handler the `before` hook registers: a HEAD request gets an empty
body with a `Date` header holding the current time (`toGMTString` of the
clock, the `now` argument); anything else falls through via `next()`. -/
def headHandler (now : String) (req : Request) : HandlerResult :=
  if req.method = "HEAD" then .respond "" now else .next

/-- `config.devServer`. The `before` field is the registered handler,
parameterised by the current clock reading. -/
structure DevServer where
  openBrowser : Bool
  https : HTTPSResult
  host : String
  useLocalIp : Bool
  port : Nat
  beforeHead : String → Request → HandlerResult

/-- `config.performance.assetFilter`: the regex
`/\.(map|png|jpg|gif|glb)$/` tested against the asset filename, negated. -/
def assetFilter (assetFilename : String) : Bool :=
  !(assetFilename.endsWith ".map" || assetFilename.endsWith ".png" ||
    assetFilename.endsWith ".jpg" || assetFilename.endsWith ".gif" ||
    assetFilename.endsWith ".glb")

/-- The whole configuration object. -/
structure Config where
  entry : List (String × String)
  output : Output
  mode : String
  devtool : String
  devServer : DevServer
  performanceAssetFilter : String → Bool
  moduleRules : List Rule
  plugins : List Plugin

/-- The module-level `config` object of `webpack.config.js`, as a function
of `__dirname` (the `dir` argument), the environment, the `certs/` state
and the material `selfsigned` would generate (the latter two feed the
`createHTTPSConfig()` call in `devServer.https`). -/
def config (dir : String) (env : Env) (fs : FsState) (pems : Pems) : Config where
  entry :=
    [("lobby", pathJoin (pathJoin dir "src") "lobby.js"),
     ("room", pathJoin (pathJoin dir "src") "room.js"),
     ("onboarding", pathJoin (pathJoin dir "src") "onboarding.js")]
  output :=
    { path := pathJoin dir "public"
      filename := "[name]-[chunkhash].js"
      publicPath := (env.BASE_ASSETS_PATH.getD "") }
  mode := "development"
  devtool := if isProd env then "source-map" else "inline-source-map"
  devServer :=
    { openBrowser := true
      https := (createHTTPSConfig env fs pems).1
      host := "0.0.0.0"
      useLocalIp := true
      port := 8080
      beforeHead := headHandler }
  performanceAssetFilter := assetFilter
  moduleRules :=
    [.htmlRule
      ["img:src", "a-asset-item:src", "a-progressive-asset:src",
       "a-progressive-asset:high-src", "a-progressive-asset:low-src",
       "audio:src"] "require",
     .jsRule ["transform-class-properties", "transform-object-rest-spread"],
     .scssRule "style-loader" { minimize := isProd env } "sass-loader",
     .cssRule "style-loader" { minimize := isProd env },
     .fileRule "[path][name]-[hash].[ext]" (pathJoin dir "src")]
  plugins :=
    [.html "index.html" (pathJoin (pathJoin dir "src") "lobby.html") ["lobby"] none,
     .html "room.html" (pathJoin (pathJoin dir "src") "room.html") ["room"] (some "head"),
     .html "onboarding.html" (pathJoin (pathJoin dir "src") "onboarding.html")
       ["onboarding"] none,
     .extractText "[name]-[contenthash].css" (!isProd env),
     .lodashTemplate
       { imports :=
          [("NODE_ENV", env.NODE_ENV),
           ("ORIGIN_TRIAL_EXPIRES", env.ORIGIN_TRIAL_EXPIRES),
           ("ORIGIN_TRIAL_TOKEN", env.ORIGIN_TRIAL_TOKEN)] },
     .define [("NODE_ENV", env.NODE_ENV), ("JANUS_SERVER", env.JANUS_SERVER)]]

/-- The data object the `html-webpack-plugin-before-html-processing` hook
receives: the generated html string and the other fields of the event data
(represented by the output name), which the hook leaves alone. -/
structure HtmlPluginData where
  html : String
  outputName : String
  deriving DecidableEq, Repr

/-- The callback `LodashTemplatePlugin.apply` registers:
`data.html = _.template(data.html, this.options)(); return data;`.
`template` stands for the lodash `_.template` library call (applied to the
html source and the plugin options, then invoked with no argument). -/
def beforeHtmlProcessing (template : String → LodashOptions → String)
    (options : LodashOptions) (data : HtmlPluginData) : HtmlPluginData :=
  { data with html := template data.html options }

/-- The per-plugin transformation `module.exports` applies for the smoke
configuration: an `HTMLWebpackPlugin` is rebuilt with all of its options
copied and `filename` replaced by `"smoke-" + filename`; every other
plugin is returned as is. -/
def smokePlugin : Plugin → Plugin
  | .html filename template chunks inject =>
      .html ("smoke-" ++ filename) template chunks inject
  | p => p

/-- The `smokeConfig` object built inside `module.exports`: the base
config with `output.publicPath` set to
`BASE_ASSETS_PATH.replace("://", "://smoke-")` and the plugin list mapped
through `smokePlugin`. -/
def smokeConfigOf (env : Env) (c : Config) : Config :=
  { c with
    output :=
      { c.output with
        publicPath := replaceFirst "://" "://smoke-" (env.BASE_ASSETS_PATH.getD "") }
    plugins := c.plugins.map smokePlugin }

/-- Return value of the exported function: the single `config` object, or
the array `[config, smokeConfig]`. -/
inductive ExportResult where
  | single (c : Config)
  | pair (c smoke : Config)

/-- `module.exports` of `webpack.config.js`. -/
def moduleExports (dir : String) (env : Env) (fs : FsState) (pems : Pems) :
    ExportResult :=
  let c := config dir env fs pems
  if truthy env.GENERATE_SMOKE_TESTS && truthy env.BASE_ASSETS_PATH then
    .pair c (smokeConfigOf env c)
  else
    .single c

/-- The chunks list of an `HTMLWebpackPlugin`, `none` on other plugins. -/
def htmlChunks : Plugin → Option (List String)
  | .html _ _ chunks _ => some chunks
  | _ => none

/-- Whether a plugin is the `LodashTemplatePlugin` instance. -/
def isLodashTemplate : Plugin → Bool
  | .lodashTemplate _ => true
  | _ => false

/-- The minimize flag of a rule's css-loader options, `none` on rules with
no css-loader. -/
def ruleMinimize : Rule → Option Bool
  | .scssRule _ o _ => some o.minimize
  | .cssRule _ o => some o.minimize
  | _ => none

/-- "The two configurations differ only in the output public path and the
HTML filenames": all other configuration fields agree, the output filename
pattern is the hashed one, the smoke public path is the base asset path
with the first `"://"` replaced by `"://smoke-"`, and the plugin lists
agree pointwise except that each `HTMLWebpackPlugin` gets `"smoke-"`
prepended to its filename (template, chunks and inject unchanged). -/
def SmokeDiffProp (env : Env) (c s : Config) : Prop :=
  s.entry = c.entry ∧
  s.mode = c.mode ∧
  s.devtool = c.devtool ∧
  s.devServer = c.devServer ∧
  s.performanceAssetFilter = c.performanceAssetFilter ∧
  s.moduleRules = c.moduleRules ∧
  s.output.path = c.output.path ∧
  s.output.filename = c.output.filename ∧
  c.output.filename = "[name]-[chunkhash].js" ∧
  s.output.publicPath = replaceFirst "://" "://smoke-" (env.BASE_ASSETS_PATH.getD "") ∧
  List.Forall₂ (fun p q =>
    (∀ f t ch i, p = Plugin.html f t ch i → q = Plugin.html ("smoke-" ++ f) t ch i) ∧
    ((∀ f t ch i, p ≠ Plugin.html f t ch i) → q = p)) c.plugins s.plugins

theorem smokePlugin_rel (p : Plugin) :
    (∀ f t ch i, p = Plugin.html f t ch i →
      smokePlugin p = Plugin.html ("smoke-" ++ f) t ch i) ∧
    ((∀ f t ch i, p ≠ Plugin.html f t ch i) → smokePlugin p = p) := by
  cases p with
  | html f t ch i =>
    refine ⟨?_, fun h => absurd rfl (h f t ch i)⟩
    intro f' t' ch' i' heq
    cases heq
    rfl
  | extractText f d => exact ⟨fun _ _ _ _ h => (nomatch h), fun _ => rfl⟩
  | lodashTemplate o => exact ⟨fun _ _ _ _ h => (nomatch h), fun _ => rfl⟩
  | define e => exact ⟨fun _ _ _ _ h => (nomatch h), fun _ => rfl⟩

theorem forall₂_smokePlugin (ps : List Plugin) :
    List.Forall₂ (fun p q =>
      (∀ f t ch i, p = Plugin.html f t ch i → q = Plugin.html ("smoke-" ++ f) t ch i) ∧
      ((∀ f t ch i, p ≠ Plugin.html f t ch i) → q = p)) ps (ps.map smokePlugin) := by
  induction ps with
  | nil => exact .nil
  | cons p ps ih => exact .cons (smokePlugin_rel p) ih

theorem moduleExports_eq_pair (dir : String) (env : Env) (fs : FsState) (pems : Pems)
    (h1 : truthy env.GENERATE_SMOKE_TESTS = true)
    (h2 : truthy env.BASE_ASSETS_PATH = true) :
    moduleExports dir env fs pems =
      .pair (config dir env fs pems) (smokeConfigOf env (config dir env fs pems)) := by
  unfold moduleExports
  rw [h1, h2]
  rfl

/-- Sample non-production environment with the smoke-test trigger and
asset path set, for the witnesses. -/
def envW : Env where
  NODE_ENV := some "development"
  BASE_ASSETS_PATH := some "https://assets.example.com"
  GENERATE_SMOKE_TESTS := some "1"
  ORIGIN_TRIAL_EXPIRES := some "expiry"
  ORIGIN_TRIAL_TOKEN := some "token"
  JANUS_SERVER := none

/-- Sample production environment. -/
def envProd : Env where
  NODE_ENV := some "production"
  BASE_ASSETS_PATH := none
  GENERATE_SMOKE_TESTS := none
  ORIGIN_TRIAL_EXPIRES := none
  ORIGIN_TRIAL_TOKEN := none
  JANUS_SERVER := none

/-- Sample `certs/` state in which the directory already exists. -/
def fsExisting : FsState where
  certsDirExists := true
  keyPem := "stored-key"
  certPem := "stored-cert"

/-- Sample `certs/` state in which the directory is absent. -/
def fsAbsent : FsState where
  certsDirExists := false
  keyPem := ""
  certPem := ""

/-- Sample generated certificate material. -/
def pemsW : Pems where
  privateKey := "generated-key"
  cert := "generated-cert"

/-- C3: `createHTTPSConfig` returns `false` exactly when `NODE_ENV` is
`"production"`; otherwise it returns the cached pair unchanged when the
`certs/` directory exists, and generates, persists and returns a fresh
pair when it does not. -/
theorem createHTTPSConfig_spec (env : Env) (fs : FsState) (pems : Pems) :
    ((createHTTPSConfig env fs pems).1 = .disabled ↔ env.NODE_ENV = some "production") ∧
    (env.NODE_ENV ≠ some "production" →
      (fs.certsDirExists = true →
        createHTTPSConfig env fs pems = (.pair fs.keyPem fs.certPem, fs)) ∧
      (fs.certsDirExists = false →
        createHTTPSConfig env fs pems =
          (.pair pems.privateKey pems.cert,
           { certsDirExists := true, keyPem := pems.privateKey, certPem := pems.cert }))) := by
  by_cases h : env.NODE_ENV = some "production"
  · simp [createHTTPSConfig, isProd, h]
  · cases hc : fs.certsDirExists <;> simp [createHTTPSConfig, isProd, h, hc]

/-- C3 witness: the spec evaluated in a development environment with an
absent `certs/` directory. -/
theorem createHTTPSConfig_spec_witness :
    ((createHTTPSConfig envW fsAbsent pemsW).1 = .disabled ↔
      envW.NODE_ENV = some "production") ∧
    (envW.NODE_ENV ≠ some "production" →
      (fsAbsent.certsDirExists = true →
        createHTTPSConfig envW fsAbsent pemsW =
          (.pair fsAbsent.keyPem fsAbsent.certPem, fsAbsent)) ∧
      (fsAbsent.certsDirExists = false →
        createHTTPSConfig envW fsAbsent pemsW =
          (.pair pemsW.privateKey pemsW.cert,
           { certsDirExists := true, keyPem := pemsW.privateKey,
             certPem := pemsW.cert }))) :=
  createHTTPSConfig_spec envW fsAbsent pemsW

/-- C2 counterexample: in a production environment the `certs/` directory
may exist and hold a stored pair, yet `createHTTPSConfig` returns `false`
(the JS literal), not the stored key/cert pair — the claim's "for every
state in which the certs/ directory already exists" fails. -/
theorem c2_production_counterexample :
    fsExisting.certsDirExists = true ∧
    (createHTTPSConfig envProd fsExisting pemsW).1 ≠
      HTTPSResult.pair fsExisting.keyPem fsExisting.certPem := by
  refine ⟨rfl, ?_⟩
  intro h
  simp [createHTTPSConfig, isProd, envProd, fsExisting] at h

/-- C2 amended: outside production, with an existing `certs/` directory
`createHTTPSConfig` returns the stored pair and leaves the state
unchanged; and (in every environment) a second invocation after a first
one returns exactly the first invocation's result and leaves the
filesystem state of the first invocation unchanged. -/
theorem createHTTPSConfig_idempotent (env : Env) (fs : FsState) (pems pems₂ : Pems) :
    (env.NODE_ENV ≠ some "production" → fs.certsDirExists = true →
      createHTTPSConfig env fs pems = (.pair fs.keyPem fs.certPem, fs)) ∧
    createHTTPSConfig env (createHTTPSConfig env fs pems).2 pems₂ =
      createHTTPSConfig env fs pems := by
  by_cases h : env.NODE_ENV = some "production"
  · simp [createHTTPSConfig, isProd, h]
  · cases hc : fs.certsDirExists <;>
      simp [createHTTPSConfig, isProd, h, hc]

/-- C2 witness: starting from an absent directory in a development
environment, the second invocation returns the pair the first one
persisted and leaves the filesystem unchanged. -/
theorem createHTTPSConfig_idempotent_witness :
    (envW.NODE_ENV ≠ some "production" → fsExisting.certsDirExists = true →
      createHTTPSConfig envW fsExisting pemsW =
        (.pair fsExisting.keyPem fsExisting.certPem, fsExisting)) ∧
    createHTTPSConfig envW (createHTTPSConfig envW fsExisting pemsW).2 pemsW =
      createHTTPSConfig envW fsExisting pemsW :=
  createHTTPSConfig_idempotent envW fsExisting pemsW pemsW

/-- C10: when the smoke variant is produced the smoke public path is
`BASE_ASSETS_PATH` with only the first occurrence of `"://"` replaced by
`"://smoke-"`; in particular when `BASE_ASSETS_PATH` contains no `"://"`,
the smoke public path equals the normal one unchanged. -/
theorem smoke_public_path_spec (dir : String) (env : Env) (fs : FsState) (pems : Pems)
    (s : String) (hg : truthy env.GENERATE_SMOKE_TESTS = true)
    (hb : env.BASE_ASSETS_PATH = some s) (hs : s ≠ "") :
    ∃ c smoke, moduleExports dir env fs pems = .pair c smoke ∧
      c.output.publicPath = s ∧
      smoke.output.publicPath = replaceFirst "://" "://smoke-" s ∧
      (occursInStr "://" s = false → smoke.output.publicPath = s) := by
  have h2 : truthy env.BASE_ASSETS_PATH = true := by simp [truthy, hb, hs]
  refine ⟨config dir env fs pems, smokeConfigOf env (config dir env fs pems),
    moduleExports_eq_pair dir env fs pems hg h2, ?_, ?_, ?_⟩
  · simp [config, hb]
  · simp [smokeConfigOf, config, hb]
  · intro hno
    simp [smokeConfigOf, config, hb, replaceFirst_of_not_occurs _ _ _ hno]

/-- C10 witness: with the sample asset path, the smoke public path is the
first-occurrence replacement of the sample path. -/
theorem smoke_public_path_spec_witness :
    ∃ c smoke, moduleExports "/hubs" envW fsExisting pemsW = .pair c smoke ∧
      c.output.publicPath = "https://assets.example.com" ∧
      smoke.output.publicPath =
        replaceFirst "://" "://smoke-" "https://assets.example.com" ∧
      (occursInStr "://" "https://assets.example.com" = false →
        smoke.output.publicPath = "https://assets.example.com") :=
  smoke_public_path_spec "/hubs" envW fsExisting pemsW "https://assets.example.com"
    (by decide) rfl (by decide)

/-- Concrete evaluation of the first-occurrence replacement: only the
first `"://"` is rewritten, later ones stay. -/
theorem replaceFirst_example :
    replaceFirst "://" "://smoke-" "https://assets.example.com/x://y" =
      "https://smoke-assets.example.com/x://y" := by decide

/-- The smoke configuration differs from a base configuration `c` only in
the public path and the HTML filenames, provided `c` carries the hashed
output filename pattern. -/
theorem smokeConfigOf_diff (env : Env) (c : Config)
    (hf : c.output.filename = "[name]-[chunkhash].js") :
    SmokeDiffProp env c (smokeConfigOf env c) := by
  unfold SmokeDiffProp smokeConfigOf
  exact ⟨rfl, rfl, rfl, rfl, rfl, rfl, rfl, rfl, hf, rfl, forall₂_smokePlugin _⟩

/-- C1: when the smoke trigger and asset path are both truthy, the export
is a pair of configurations that differ only in the output public path and
the HTML filenames (each prefixed with `"smoke-"`), all other fields
agreeing. -/
theorem smoke_variant_diff (dir : String) (env : Env) (fs : FsState) (pems : Pems)
    (h1 : truthy env.GENERATE_SMOKE_TESTS = true)
    (h2 : truthy env.BASE_ASSETS_PATH = true) :
    ∃ c s, moduleExports dir env fs pems = .pair c s ∧ SmokeDiffProp env c s :=
  ⟨config dir env fs pems, smokeConfigOf env (config dir env fs pems),
   moduleExports_eq_pair dir env fs pems h1 h2, smokeConfigOf_diff env _ rfl⟩

/-- C1 witness: the pair property at the sample smoke-enabled
environment. -/
theorem smoke_variant_diff_witness :
    truthy envW.GENERATE_SMOKE_TESTS = true ∧
    truthy envW.BASE_ASSETS_PATH = true ∧
    ∃ c s, moduleExports "/hubs" envW fsExisting pemsW = .pair c s ∧
      SmokeDiffProp envW c s :=
  ⟨by decide, by decide,
   smoke_variant_diff "/hubs" envW fsExisting pemsW (by decide) (by decide)⟩

/-- C4: the three entry names are lobby, room and onboarding; for each of
them exactly one plugin is an `HTMLWebpackPlugin` whose chunks contain
that name, and every `HTMLWebpackPlugin` whose chunks contain the name has
exactly `[name]` as its chunks, so no HTML output references another
entry's chunk. -/
theorem html_chunks_exclusive (dir : String) (env : Env) (fs : FsState) (pems : Pems) :
    (config dir env fs pems).entry.map Prod.fst = ["lobby", "room", "onboarding"] ∧
    ∀ e ∈ ["lobby", "room", "onboarding"],
      ((config dir env fs pems).plugins.countP
        (fun p => ((htmlChunks p).getD []).contains e)) = 1 ∧
      ∀ p ∈ (config dir env fs pems).plugins, ∀ ch, htmlChunks p = some ch →
        e ∈ ch → ch = [e] := by
  refine ⟨rfl, ?_⟩
  intro e he
  have hmem : ∀ p ∈ (config dir env fs pems).plugins, ∀ ch, htmlChunks p = some ch →
      e ∈ ch → ch = [e] := by
    intro p hp ch hch hin
    simp only [config, List.mem_cons, List.not_mem_nil, or_false] at hp
    rcases hp with rfl | rfl | rfl | rfl | rfl | rfl <;> simp_all [htmlChunks] <;>
      (subst hch; simp_all)
  refine ⟨?_, hmem⟩
  simp only [List.mem_cons, List.not_mem_nil, or_false] at he
  rcases he with rfl | rfl | rfl <;>
    simp [config, htmlChunks, List.countP_cons, List.countP_nil]

/-- C4 witness: the exclusivity property evaluated at the sample inputs. -/
theorem html_chunks_exclusive_witness :
    (config "/hubs" envW fsExisting pemsW).entry.map Prod.fst =
      ["lobby", "room", "onboarding"] ∧
    ∀ e ∈ ["lobby", "room", "onboarding"],
      ((config "/hubs" envW fsExisting pemsW).plugins.countP
        (fun p => ((htmlChunks p).getD []).contains e)) = 1 ∧
      ∀ p ∈ (config "/hubs" envW fsExisting pemsW).plugins, ∀ ch,
        htmlChunks p = some ch → e ∈ ch → ch = [e] :=
  html_chunks_exclusive "/hubs" envW fsExisting pemsW

/-- C5: the configuration declares exactly the entries lobby, room and
onboarding, outputs bundles named by the content-hashed pattern, and wires
each entry to its dedicated HTML document. -/
theorem entry_points_spec (dir : String) (env : Env) (fs : FsState) (pems : Pems) :
    (config dir env fs pems).entry.map Prod.fst = ["lobby", "room", "onboarding"] ∧
    (config dir env fs pems).output.filename = "[name]-[chunkhash].js" ∧
    Plugin.html "index.html" (pathJoin (pathJoin dir "src") "lobby.html")
      ["lobby"] none ∈ (config dir env fs pems).plugins ∧
    Plugin.html "room.html" (pathJoin (pathJoin dir "src") "room.html")
      ["room"] (some "head") ∈ (config dir env fs pems).plugins ∧
    Plugin.html "onboarding.html" (pathJoin (pathJoin dir "src") "onboarding.html")
      ["onboarding"] none ∈ (config dir env fs pems).plugins := by
  refine ⟨rfl, rfl, ?_, ?_, ?_⟩ <;> simp [config]

/-- Shared helper: the https configuration is the JS `false` exactly in
production. -/
theorem createHTTPSConfig_disabled_iff (env : Env) (fs : FsState) (pems : Pems) :
    (createHTTPSConfig env fs pems).1 = .disabled ↔
      env.NODE_ENV = some "production" := by
  by_cases h : env.NODE_ENV = some "production"
  · simp [createHTTPSConfig, isProd, h]
  · cases hc : fs.certsDirExists <;> simp [createHTTPSConfig, isProd, h, hc]

/-- C6: `NODE_ENV` toggles the devtool (source-map in production,
inline-source-map otherwise), the css-loader minimize option of both the
`.scss` and `.css` rules (enabled exactly in production), and the https
bypass (false exactly in production). -/
theorem node_env_toggles (dir : String) (env : Env) (fs : FsState) (pems : Pems) :
    ((config dir env fs pems).devtool =
      if env.NODE_ENV = some "production" then "source-map" else "inline-source-map") ∧
    Rule.scssRule "style-loader" { minimize := isProd env } "sass-loader" ∈
      (config dir env fs pems).moduleRules ∧
    Rule.cssRule "style-loader" { minimize := isProd env } ∈
      (config dir env fs pems).moduleRules ∧
    (∀ r ∈ (config dir env fs pems).moduleRules, ∀ b, ruleMinimize r = some b →
      (b = true ↔ env.NODE_ENV = some "production")) ∧
    ((createHTTPSConfig env fs pems).1 = .disabled ↔
      env.NODE_ENV = some "production") := by
  refine ⟨?_, by simp [config], by simp [config], ?_,
    createHTTPSConfig_disabled_iff env fs pems⟩
  · by_cases h : env.NODE_ENV = some "production" <;> simp [config, isProd, h]
  · intro r hr b hb
    simp only [config, List.mem_cons, List.not_mem_nil, or_false] at hr
    rcases hr with rfl | rfl | rfl | rfl | rfl <;>
      simp only [ruleMinimize, Option.some.injEq, reduceCtorEq] at hb <;>
      subst hb <;> simp [isProd]

/-- C6 witness: the toggles evaluated in the sample development
environment. -/
theorem node_env_toggles_witness :
    ((config "/hubs" envW fsExisting pemsW).devtool =
      if envW.NODE_ENV = some "production" then "source-map"
      else "inline-source-map") ∧
    Rule.scssRule "style-loader" { minimize := isProd envW } "sass-loader" ∈
      (config "/hubs" envW fsExisting pemsW).moduleRules ∧
    Rule.cssRule "style-loader" { minimize := isProd envW } ∈
      (config "/hubs" envW fsExisting pemsW).moduleRules ∧
    (∀ r ∈ (config "/hubs" envW fsExisting pemsW).moduleRules, ∀ b,
      ruleMinimize r = some b → (b = true ↔ envW.NODE_ENV = some "production")) ∧
    ((createHTTPSConfig envW fsExisting pemsW).1 = .disabled ↔
      envW.NODE_ENV = some "production") :=
  node_env_toggles "/hubs" envW fsExisting pemsW

/-- C7: exactly one plugin is the lodash template plugin; it exposes
exactly the three variables NODE_ENV, ORIGIN_TRIAL_EXPIRES and
ORIGIN_TRIAL_TOKEN; and its registered callback replaces `data.html` with
the templated html and returns the data object otherwise unchanged. -/
theorem lodash_template_spec (dir : String) (env : Env) (fs : FsState) (pems : Pems) :
    (config dir env fs pems).plugins.countP isLodashTemplate = 1 ∧
    Plugin.lodashTemplate
      { imports :=
         [("NODE_ENV", env.NODE_ENV),
          ("ORIGIN_TRIAL_EXPIRES", env.ORIGIN_TRIAL_EXPIRES),
          ("ORIGIN_TRIAL_TOKEN", env.ORIGIN_TRIAL_TOKEN)] } ∈
      (config dir env fs pems).plugins ∧
    ∀ (template : String → LodashOptions → String) (options : LodashOptions)
      (data : HtmlPluginData),
      beforeHtmlProcessing template options data =
        { html := template data.html options, outputName := data.outputName } := by
  refine ⟨?_, by simp [config], fun template options data => rfl⟩
  simp [config, isLodashTemplate, List.countP_cons, List.countP_nil]

/-- C8: the dev server binds all interfaces, serves over the result of
`createHTTPSConfig`, and its registered handler answers HEAD requests with
an empty body and a Date header holding the current time while calling
`next()` on anything else. -/
theorem dev_server_spec (dir : String) (env : Env) (fs : FsState) (pems : Pems) :
    (config dir env fs pems).devServer.host = "0.0.0.0" ∧
    (config dir env fs pems).devServer.https = (createHTTPSConfig env fs pems).1 ∧
    ∀ (now : String) (req : Request),
      (config dir env fs pems).devServer.beforeHead now req =
        if req.method = "HEAD" then HandlerResult.respond "" now
        else HandlerResult.next :=
  ⟨rfl, rfl, fun _ _ => rfl⟩

/-- C9: the export is a pair exactly when both GENERATE_SMOKE_TESTS and
BASE_ASSETS_PATH are truthy, is the single base configuration otherwise,
and the base public path defaults to the empty string when
BASE_ASSETS_PATH is unset. -/
theorem exports_shape (dir : String) (env : Env) (fs : FsState) (pems : Pems) :
    ((∃ c s, moduleExports dir env fs pems = .pair c s) ↔
      (truthy env.GENERATE_SMOKE_TESTS = true ∧ truthy env.BASE_ASSETS_PATH = true)) ∧
    (¬(truthy env.GENERATE_SMOKE_TESTS = true ∧ truthy env.BASE_ASSETS_PATH = true) →
      moduleExports dir env fs pems = .single (config dir env fs pems)) ∧
    (env.BASE_ASSETS_PATH = none →
      (config dir env fs pems).output.publicPath = "") := by
  by_cases hcond : truthy env.GENERATE_SMOKE_TESTS = true ∧
      truthy env.BASE_ASSETS_PATH = true
  · refine ⟨⟨fun _ => hcond, fun _ =>
      ⟨_, _, moduleExports_eq_pair dir env fs pems hcond.1 hcond.2⟩⟩,
      fun hn => absurd hcond hn, fun hb => by simp [config, hb]⟩
  · have hfalse : (truthy env.GENERATE_SMOKE_TESTS &&
        truthy env.BASE_ASSETS_PATH) = false := by
      rcases Bool.eq_false_or_eq_true (truthy env.GENERATE_SMOKE_TESTS) with h1 | h1 <;>
        rcases Bool.eq_false_or_eq_true (truthy env.BASE_ASSETS_PATH) with h2 | h2 <;>
        simp_all
    have hsingle : moduleExports dir env fs pems = .single (config dir env fs pems) := by
      unfold moduleExports
      rw [hfalse]
      rfl
    refine ⟨⟨?_, fun h => absurd h hcond⟩, fun _ => hsingle,
      fun hb => by simp [config, hb]⟩
    rintro ⟨c, s, hpair⟩
    rw [hsingle] at hpair
    cases hpair

/-- C9 witness: the export shape at the sample smoke-enabled inputs. -/
theorem exports_shape_witness :
    ((∃ c s, moduleExports "/hubs" envW fsExisting pemsW = .pair c s) ↔
      (truthy envW.GENERATE_SMOKE_TESTS = true ∧
       truthy envW.BASE_ASSETS_PATH = true)) ∧
    (¬(truthy envW.GENERATE_SMOKE_TESTS = true ∧
       truthy envW.BASE_ASSETS_PATH = true) →
      moduleExports "/hubs" envW fsExisting pemsW =
        .single (config "/hubs" envW fsExisting pemsW)) ∧
    (envW.BASE_ASSETS_PATH = none →
      (config "/hubs" envW fsExisting pemsW).output.publicPath = "") :=
  exports_shape "/hubs" envW fsExisting pemsW

end Hubs
